import Mathlib

/-!
Shallow embedding of the ebird-checker backend (src/app.py) and proofs of the
specified properties.  The Flask handlers are modelled as pure functions; the
upstream HTTP service is an oracle function passed in as an argument; the
database is an explicit state value.
-/


namespace EbirdChecker

/-- A Python/JSON value as it can occur in a request payload field. -/
inductive Val where
  | vnull
  | vbool (b : Bool)
  | vnum (n : Int)
  | vstr (s : String)
deriving DecidableEq, Repr

/-- Python truthiness of a payload value (`bool(v)`). -/
def Val.truthy : Val → Bool
  | .vnull => false
  | .vbool b => b
  | .vnum n => n != 0
  | .vstr s => !s.isEmpty

/-- Python `str(v)` as used by f-string interpolation of a payload value. -/
def Val.pyStr : Val → String
  | .vnull => "None"
  | .vbool b => if b then "True" else "False"
  | .vnum n => toString n
  | .vstr s => s

/-- A JSON document, as produced by `response.json()` and consumed by `jsonify`.
Numbers are restricted to integers, the fragment exercised by this backend. -/
inductive Json where
  | null
  | bool (b : Bool)
  | num (n : Int)
  | str (s : String)
  | arr (elems : List Json)
  | obj (fields : List (String × Json))
deriving Repr

/-- A JSON payload object: field name to value, first binding wins. -/
def JObj := List (String × Val)

/-- `data.get(key)`: the value bound to a field, if present. -/
def jget (o : JObj) (key : String) : Option Val :=
  match o.find? (fun kv => kv.1 == key) with
  | some kv => some kv.2
  | none => none

/-- `data.get(key, default)`: present value, else the default (a present
`null` is returned as-is, matching Python `dict.get`). -/
def jgetD (o : JObj) (key : String) (dflt : Val) : Val :=
  match jget o key with
  | some v => v
  | none => dflt

/-- Truthiness of an optional payload value (`not data.get(k)` is true when the
field is absent or its value is falsy). -/
def truthyO (o : Option Val) : Bool :=
  match o with
  | none => false
  | some v => v.truthy

/-- `str()` applied to an optional payload value (`None` when absent). -/
def pyStrO (o : Option Val) : String :=
  match o with
  | none => "None"
  | some v => v.pyStr

/-- Query-string arguments: name to string value. -/
def Args := List (String × String)

/-- `request.args.get(key)`. -/
def aget (a : Args) (key : String) : Option String :=
  match a.find? (fun kv => kv.1 == key) with
  | some kv => some kv.2
  | none => none

/-- Truthiness of an optional query argument. -/
def truthyA (o : Option String) : Bool :=
  match o with
  | none => false
  | some s => !s.isEmpty

/-- Truthiness of the optional server credential (`not api_key` is true when
the environment variable is unset or empty). -/
def truthyKey (k : Option String) : Bool :=
  match k with
  | none => false
  | some s => !s.isEmpty

/-! ### JSON text: `json.loads` / `json.dumps`
The handlers call `response.json()` (parse the upstream body text) and
`jsonify` (serialize a value to the response body).  We embed a parser and
serializer for the integer fragment of JSON; string escapes and floats are
outside the fragment this backend exercises, and the parser conservatively
rejects them. -/

/-- Skip JSON whitespace. -/
def skipWs : List Char → List Char
  | c :: cs => if c = ' ' || c = '\t' || c = '\n' || c = '\r' then skipWs cs else c :: cs
  | [] => []

/-- Read the body of a string literal up to the closing quote.  Escape
sequences are outside the modelled fragment and make the parse fail. -/
def takeStr : List Char → Option (List Char × List Char)
  | c :: cs =>
    if c = '"' then some ([], cs)
    else if c = '\\' then none
    else
      match takeStr cs with
      | some (acc, rest) => some (c :: acc, rest)
      | none => none
  | [] => none

/-- Split a leading run of decimal digits. -/
def takeDigits : List Char → List Char × List Char
  | c :: cs =>
    if c.isDigit then
      let p := takeDigits cs
      (c :: p.1, p.2)
    else ([], c :: cs)
  | [] => ([], [])

/-- Decimal digits to a natural number. -/
def digitsToNat (ds : List Char) : Nat :=
  ds.foldl (fun a c => a * 10 + (c.toNat - 48)) 0

/-- After an integer literal, a fraction or exponent marker means the number
is a float, which is outside the modelled fragment. -/
def numCont : List Char → Bool
  | c :: _ => c = '.' || c = 'e' || c = 'E'
  | [] => false

mutual

/-- Fuel-bounded JSON parser: one value plus the remaining input. -/
def parseJ : Nat → List Char → Option (Json × List Char)
  | 0, _ => none
  | fuel + 1, cs =>
    match skipWs cs with
    | [] => none
    | c :: rest =>
      if c = 'n' then
        match rest with
        | 'u' :: 'l' :: 'l' :: r => some (.null, r)
        | _ => none
      else if c = 't' then
        match rest with
        | 'r' :: 'u' :: 'e' :: r => some (.bool true, r)
        | _ => none
      else if c = 'f' then
        match rest with
        | 'a' :: 'l' :: 's' :: 'e' :: r => some (.bool false, r)
        | _ => none
      else if c = '"' then
        match takeStr rest with
        | some (acc, r) => some (.str (String.mk acc), r)
        | none => none
      else if c = '-' then
        match takeDigits rest with
        | ([], _) => none
        | (ds, r) => if numCont r then none else some (.num (-(digitsToNat ds : Int)), r)
      else if c.isDigit then
        match takeDigits (c :: rest) with
        | (ds, r) => if numCont r then none else some (.num (digitsToNat ds), r)
      else if c = '[' then
        parseArrStart fuel rest
      else if c = '\x7b' then
        parseObjStart fuel rest
      else none

/-- Parse an array body right after the opening bracket. -/
def parseArrStart : Nat → List Char → Option (Json × List Char)
  | 0, _ => none
  | fuel + 1, cs =>
    match skipWs cs with
    | ']' :: r => some (.arr [], r)
    | cs2 =>
      match parseJ fuel cs2 with
      | some (j, r) => parseArrTail fuel [j] r
      | none => none

/-- Parse the rest of an array after at least one element. -/
def parseArrTail : Nat → List Json → List Char → Option (Json × List Char)
  | 0, _, _ => none
  | fuel + 1, acc, cs =>
    match skipWs cs with
    | ',' :: r =>
      match parseJ fuel r with
      | some (j, r2) => parseArrTail fuel (acc ++ [j]) r2
      | none => none
    | ']' :: r => some (.arr acc, r)
    | _ => none

/-- Parse one `"key": value` field of an object. -/
def parseField : Nat → List Char → Option ((String × Json) × List Char)
  | 0, _ => none
  | fuel + 1, cs =>
    match skipWs cs with
    | '"' :: rest =>
      match takeStr rest with
      | some (acc, r) =>
        match skipWs r with
        | ':' :: r2 =>
          match parseJ fuel r2 with
          | some (j, r3) => some ((String.mk acc, j), r3)
          | none => none
        | _ => none
      | none => none
    | _ => none

/-- Parse an object body right after the opening brace. -/
def parseObjStart : Nat → List Char → Option (Json × List Char)
  | 0, _ => none
  | fuel + 1, cs =>
    match skipWs cs with
    | '\x7d' :: r => some (.obj [], r)
    | cs2 =>
      match parseField fuel cs2 with
      | some (kv, r) => parseObjTail fuel [kv] r
      | none => none

/-- Parse the rest of an object after at least one field. -/
def parseObjTail : Nat → List (String × Json) → List Char → Option (Json × List Char)
  | 0, _, _ => none
  | fuel + 1, acc, cs =>
    match skipWs cs with
    | ',' :: r =>
      match parseField fuel r with
      | some (kv, r2) => parseObjTail fuel (acc ++ [kv]) r2
      | none => none
    | '\x7d' :: r => some (.obj acc, r)
    | _ => none

end

/-- `json.loads`: parse a complete JSON document (trailing whitespace only). -/
def pyJsonLoads (s : String) : Option Json :=
  match parseJ (2 * s.length + 2) s.data with
  | some (j, rest) => if (skipWs rest).isEmpty then some j else none
  | none => none

mutual

/-- `json.dumps` with the default Python separators, as used by `jsonify`. -/
def pyJsonDumps : Json → String
  | .null => "null"
  | .bool b => if b then "true" else "false"
  | .num n => toString n
  | .str s => "\"" ++ s ++ "\""
  | .arr es => "[" ++ dumpsElems es ++ "]"
  | .obj fs => "\x7b" ++ dumpsFields fs ++ "\x7d"

/-- Comma-separated serialization of array elements. -/
def dumpsElems : List Json → String
  | [] => ""
  | [j] => pyJsonDumps j
  | j :: js => pyJsonDumps j ++ ", " ++ dumpsElems js

/-- Comma-separated serialization of object fields. -/
def dumpsFields : List (String × Json) → String
  | [] => ""
  | [kv] => "\"" ++ kv.1 ++ "\": " ++ pyJsonDumps kv.2
  | kv :: kvs => "\"" ++ kv.1 ++ "\": " ++ pyJsonDumps kv.2 ++ ", " ++ dumpsFields kvs

end

/-! ### The proxy layer (observation / hotspot handlers) -/

/-- One upstream `requests.get` call: URL, query parameters, headers. -/
structure UpReq where
  url : String
  params : List (String × Val)
  headers : List (String × String)
deriving DecidableEq, Repr

/-- The upstream response: HTTP status and raw body text. -/
structure UpResp where
  status : Nat
  text : String
deriving DecidableEq, Repr

/-- What a proxy handler produces: the HTTP status and body returned to the
client, plus the list of upstream calls it issued (in order). -/
structure ClientResp where
  status : Nat
  body : Json
  calls : List UpReq
deriving Repr

/-- `jsonify` of a one-field error dictionary. -/
def errJson (msg : String) : Json := .obj [("error", .str msg)]

def EBIRD_API_BASE : String := "https://api.ebird.org/v2"

/-- Abstraction of `str(e)` for the JSON-decode exception raised by
`response.json()` on a non-JSON body; the exact CPython message text is not
modelled, only that the handler returns it inside a 500 error envelope. -/
def jsonDecodeErrMsg : String := "Expecting value"

/-- The shared tail of every handler: build the upstream request with the
credential as the `X-eBirdApiToken` header, issue the GET, forward the parsed
JSON on 200, else wrap status and body text in the error envelope.  A 200
body that fails to parse raises inside `jsonify(response.json())` and is
caught by the handler's `except` clause as a 500. -/
def callUpstream (url : String) (params : List (String × Val)) (key : String)
    (errLabel : String) (up : UpReq → UpResp) : ClientResp :=
  let req : UpReq := ⟨url, params, [("X-eBirdApiToken", key)]⟩
  let resp := up req
  if resp.status == 200 then
    match pyJsonLoads resp.text with
    | some j => ⟨200, j, [req]⟩
    | none => ⟨500, errJson jsonDecodeErrMsg, [req]⟩
  else
    ⟨resp.status, .obj [("error", .str (errLabel ++ toString resp.status)), ("message", .str resp.text)], [req]⟩

/-- `POST /api/observations` (`get_observations` in src/app.py). -/
def get_observations (data : JObj) (apiKey : Option String) (up : UpReq → UpResp) : ClientResp :=
  let location_id := jget data "locationId"
  let species_code := jget data "speciesCode"
  let days_back := jgetD data "daysBack" (.vnum 30)
  if !truthyKey apiKey then
    ⟨500, errJson "Server configuration error: API key missing", []⟩
  else if !truthyO location_id || !truthyO species_code then
    ⟨400, errJson "Missing required parameters", []⟩
  else
    callUpstream (EBIRD_API_BASE ++ "/data/obs/" ++ pyStrO location_id ++ "/recent/" ++ pyStrO species_code)
      [("back", days_back)]
      (apiKey.getD "") "eBird API error: " up

/-- `POST /api/nearby` (`get_nearby_observations` in src/app.py). -/
def get_nearby_observations (data : JObj) (apiKey : Option String) (up : UpReq → UpResp) : ClientResp :=
  let lat := jget data "lat"
  let lng := jget data "lng"
  let species_code := jget data "speciesCode"
  let dist := jgetD data "dist" (.vnum 25)
  let days_back := jgetD data "daysBack" (.vnum 14)
  if !truthyKey apiKey then
    ⟨500, errJson "Server configuration error: API key missing", []⟩
  else if !truthyO lat || !truthyO lng || !truthyO species_code then
    ⟨400, errJson "Missing required parameters", []⟩
  else
    callUpstream (EBIRD_API_BASE ++ "/data/nearest/geo/recent/" ++ pyStrO species_code)
      [("lat", lat.getD .vnull), ("lng", lng.getD .vnull), ("dist", dist),
       ("back", days_back), ("sort", .vstr "date")]
      (apiKey.getD "") "eBird API error: " up

/-- `GET /api/hotspot/info` (`get_hotspot_info` in src/app.py). -/
def get_hotspot_info (args : Args) (apiKey : Option String) (up : UpReq → UpResp) : ClientResp :=
  let loc_id := aget args "locId"
  if !truthyKey apiKey then
    ⟨500, errJson "Server configuration error: API key missing", []⟩
  else if !truthyA loc_id then
    ⟨400, errJson "Missing locId parameter", []⟩
  else
    callUpstream (EBIRD_API_BASE ++ "/ref/hotspot/info/" ++ loc_id.getD "")
      [("fmt", .vstr "json")]
      (apiKey.getD "") "eBird error " up

/-- `GET /api/hotspot/nearby` (`get_nearby_hotspots` in src/app.py). -/
def get_nearby_hotspots (args : Args) (apiKey : Option String) (up : UpReq → UpResp) : ClientResp :=
  let lat := aget args "lat"
  let lng := aget args "lng"
  let dist : Val := match aget args "dist" with
    | some s => .vstr s
    | none => .vnum 25
  if !truthyKey apiKey then
    ⟨500, errJson "Server configuration error: API key missing", []⟩
  else if !truthyA lat || !truthyA lng then
    ⟨400, errJson "Missing lat/lng parameters", []⟩
  else
    callUpstream (EBIRD_API_BASE ++ "/ref/hotspot/geo")
      [("lat", .vstr (lat.getD "")), ("lng", .vstr (lng.getD "")), ("dist", dist), ("fmt", .vstr "json")]
      (apiKey.getD "") "eBird error " up

/-- `POST /api/notable` (`get_notable_observations` in src/app.py). -/
def get_notable_observations (data : JObj) (apiKey : Option String) (up : UpReq → UpResp) : ClientResp :=
  let lat := jget data "lat"
  let lng := jget data "lng"
  let dist := jgetD data "dist" (.vnum 25)
  let days_back := jgetD data "daysBack" (.vnum 14)
  if !truthyKey apiKey then
    ⟨500, errJson "Server configuration error: API key missing", []⟩
  else if !truthyO lat || !truthyO lng then
    ⟨400, errJson "Missing required parameters", []⟩
  else
    callUpstream (EBIRD_API_BASE ++ "/data/obs/geo/recent/notable")
      [("lat", lat.getD .vnull), ("lng", lng.getD .vnull), ("dist", dist),
       ("back", days_back), ("detail", .vstr "full")]
      (apiKey.getD "") "eBird API error: " up

/-- An inbound request: the JSON payload (POST routes) and the query-string
arguments (GET routes). -/
structure Request where
  json : JObj
  args : Args

/-- The five observation operations. -/
inductive Op where
  | obsLoc
  | obsNearby
  | notable
  | hotspotInfo
  | hotspotNearby
deriving DecidableEq, Repr

/-- Dispatch an operation to its handler. -/
def runOp : Op → Request → Option String → (UpReq → UpResp) → ClientResp
  | .obsLoc, r, k, up => get_observations r.json k up
  | .obsNearby, r, k, up => get_nearby_observations r.json k up
  | .notable, r, k, up => get_notable_observations r.json k up
  | .hotspotInfo, r, k, up => get_hotspot_info r.args k up
  | .hotspotNearby, r, k, up => get_nearby_hotspots r.args k up

/-- The validation condition each handler actually tests: some required field
of the operation is falsy under Python truthiness. -/
def requiredFalsy : Op → Request → Bool
  | .obsLoc, r => !truthyO (jget r.json "locationId") || !truthyO (jget r.json "speciesCode")
  | .obsNearby, r => !truthyO (jget r.json "lat") || !truthyO (jget r.json "lng")
      || !truthyO (jget r.json "speciesCode")
  | .notable, r => !truthyO (jget r.json "lat") || !truthyO (jget r.json "lng")
  | .hotspotInfo, r => !truthyA (aget r.args "locId")
  | .hotspotNearby, r => !truthyA (aget r.args "lat") || !truthyA (aget r.args "lng")

/-- From the words of the specification: every required field of the operation
is present and non-empty (null counts as absent; a string is non-empty when it
has characters; numbers and booleans are present, non-empty values). -/
def presentNonEmptyJ (o : JObj) (key : String) : Bool :=
  match jget o key with
  | none => false
  | some .vnull => false
  | some (.vstr s) => !s.isEmpty
  | some (.vnum _) => true
  | some (.vbool _) => true

/-- A query argument is present and non-empty. -/
def presentNonEmptyA (a : Args) (key : String) : Bool :=
  match aget a key with
  | none => false
  | some s => !s.isEmpty

/-- From the words of the specification: all required fields of the operation
are present and non-empty in the request. -/
def requiredPresentNonEmpty : Op → Request → Bool
  | .obsLoc, r => presentNonEmptyJ r.json "locationId" && presentNonEmptyJ r.json "speciesCode"
  | .obsNearby, r => presentNonEmptyJ r.json "lat" && presentNonEmptyJ r.json "lng"
      && presentNonEmptyJ r.json "speciesCode"
  | .notable, r => presentNonEmptyJ r.json "lat" && presentNonEmptyJ r.json "lng"
  | .hotspotInfo, r => presentNonEmptyA r.args "locId"
  | .hotspotNearby, r => presentNonEmptyA r.args "lat" && presentNonEmptyA r.args "lng"

/-! ### Accounts and favorites (src/app.py models and handlers) -/

/-- A row of the `user` table. -/
structure UserRec where
  id : Nat
  username : String
  password_hash : String
deriving DecidableEq, Repr

/-- A row of the `favorite` table. -/
structure Favorite where
  id : Nat
  user_id : Nat
  hotspot_id : String
  hotspot_name : String
deriving DecidableEq, Repr

/-- The durable store: both tables plus their autoincrement counters. -/
structure DB where
  users : List UserRec
  favorites : List Favorite
  nextUserId : Nat
  nextFavId : Nat
deriving DecidableEq, Repr

/-- Server state as seen by one client: the store and that client's session
(the logged-in user id, if any). -/
structure AppState where
  db : DB
  session : Option Nat
deriving DecidableEq, Repr

/-- Fresh server: empty tables, no session. -/
def initialState : AppState := ⟨⟨[], [], 1, 1⟩, none⟩

/-- Model of werkzeug `generate_password_hash`: an injective digest,
abstracted as a tagged copy (no claim needs one-way-ness). -/
def generate_password_hash (password : String) : String :=
  "pbkdf2-sha256$" ++ password

/-- Model of werkzeug `check_password_hash`. -/
def check_password_hash (stored password : String) : Bool :=
  stored == generate_password_hash password

/-- What a stateful handler produces: the new state, the HTTP status and the
JSON body. -/
structure StResp where
  st : AppState
  status : Nat
  body : Json
deriving Repr

/-- Body produced by the `login_required` gate when no session is active
(Flask-Login rejects with 401 before the handler runs). -/
def unauthorizedJson : Json := errJson "Unauthorized"

/-- `POST /api/register` (`register` in src/app.py).  Payload fields are
modelled as strings; an absent field behaves like the empty string under the
truthiness check. -/
def register (st : AppState) (username password : String) : StResp :=
  if username.isEmpty || password.isEmpty then
    ⟨st, 400, errJson "Username and password required"⟩
  else
    match st.db.users.find? (fun u => u.username == username) with
    | some _ => ⟨st, 400, errJson "Username already exists"⟩
    | none =>
      let newUser : UserRec := ⟨st.db.nextUserId, username, generate_password_hash password⟩
      ⟨⟨⟨st.db.users ++ [newUser], st.db.favorites, st.db.nextUserId + 1, st.db.nextFavId⟩,
          some newUser.id⟩,
        200,
        .obj [("message", .str "Registration successful"),
              ("user", .obj [("id", .num (newUser.id : Int)), ("username", .str username)])]⟩

/-- `POST /api/login` (`login` in src/app.py). -/
def login (st : AppState) (username password : String) : StResp :=
  match st.db.users.find? (fun u => u.username == username) with
  | some user =>
    if check_password_hash user.password_hash password then
      ⟨{st with session := some user.id}, 200,
        .obj [("message", .str "Login successful"),
              ("user", .obj [("id", .num (user.id : Int)), ("username", .str user.username)])]⟩
    else
      ⟨st, 401, errJson "Invalid username or password"⟩
  | none => ⟨st, 401, errJson "Invalid username or password"⟩

/-- `POST /api/logout` (`logout` in src/app.py, behind `login_required`). -/
def logout (st : AppState) : StResp :=
  match st.session with
  | none => ⟨st, 401, unauthorizedJson⟩
  | some _ => ⟨{st with session := none}, 200, .obj [("message", .str "Logged out successfully")]⟩

/-- `GET /api/user` (`get_current_user` in src/app.py). -/
def get_current_user (st : AppState) : StResp :=
  match st.session with
  | none => ⟨st, 200, .obj [("authenticated", .bool false)]⟩
  | some uid =>
    match st.db.users.find? (fun u => u.id == uid) with
    | some user =>
      ⟨st, 200, .obj [("authenticated", .bool true),
        ("user", .obj [("id", .num (user.id : Int)), ("username", .str user.username)])]⟩
    | none => ⟨st, 200, .obj [("authenticated", .bool false)]⟩

/-- The JSON entry built for one favorite row by the list branch of
`manage_favorites`: the `id` field carries the external hotspot id. -/
def favEntry (f : Favorite) : Json :=
  .obj [("id", .str f.hotspot_id), ("name", .str f.hotspot_name)]

/-- The rows of the list body for a user id. -/
def favList (st : AppState) (uid : Nat) : List Json :=
  (st.db.favorites.filter (fun f => f.user_id == uid)).map favEntry

/-- `GET /api/favorites` (`manage_favorites`, GET branch). -/
def manage_favorites_get (st : AppState) : StResp :=
  match st.session with
  | none => ⟨st, 401, unauthorizedJson⟩
  | some uid => ⟨st, 200, .arr (favList st uid)⟩

/-- `POST /api/favorites` (`manage_favorites`, POST branch). -/
def manage_favorites_post (st : AppState) (hotspot_id hotspot_name : String) : StResp :=
  match st.session with
  | none => ⟨st, 401, unauthorizedJson⟩
  | some uid =>
    if hotspot_id.isEmpty || hotspot_name.isEmpty then
      ⟨st, 400, errJson "Missing id or name"⟩
    else
      match st.db.favorites.find? (fun f => f.user_id == uid && f.hotspot_id == hotspot_id) with
      | some _ => ⟨st, 200, .obj [("message", .str "Already in favorites")]⟩
      | none =>
        let newFav : Favorite := ⟨st.db.nextFavId, uid, hotspot_id, hotspot_name⟩
        ⟨⟨⟨st.db.users, st.db.favorites ++ [newFav], st.db.nextUserId, st.db.nextFavId + 1⟩,
            st.session⟩,
          200, .obj [("message", .str "Added to favorites")]⟩

/-- `DELETE /api/favorites/<hotspot_id>` (`delete_favorite` in src/app.py).
`db.session.delete(fav)` removes the found row by its primary key. -/
def delete_favorite (st : AppState) (hotspot_id : String) : StResp :=
  match st.session with
  | none => ⟨st, 401, unauthorizedJson⟩
  | some uid =>
    match st.db.favorites.find? (fun f => f.user_id == uid && f.hotspot_id == hotspot_id) with
    | some fav =>
      ⟨⟨⟨st.db.users, st.db.favorites.filter (fun f => f.id != fav.id),
          st.db.nextUserId, st.db.nextFavId⟩, st.session⟩,
        200, .obj [("message", .str "Deleted")]⟩
    | none => ⟨st, 404, errJson "Not found"⟩

/-- One client-visible operation on the stateful part of the server. -/
inductive Action where
  | register (username password : String)
  | login (username password : String)
  | logout
  | whoami
  | favGet
  | favAdd (hotspot_id hotspot_name : String)
  | favRemove (hotspot_id : String)
deriving DecidableEq, Repr

/-- State transition of one action (the response is discarded). -/
def step (st : AppState) : Action → AppState
  | .register u p => (register st u p).st
  | .login u p => (login st u p).st
  | .logout => (logout st).st
  | .whoami => (get_current_user st).st
  | .favGet => (manage_favorites_get st).st
  | .favAdd h n => (manage_favorites_post st h n).st
  | .favRemove h => (delete_favorite st h).st

/-- The state reached from a fresh server by a sequence of actions. -/
def runActions (acts : List Action) : AppState :=
  acts.foldl step initialState

/-- Number of favorite rows with the given owner and hotspot id. -/
def countFav (st : AppState) (uid : Nat) (hid : String) : Nat :=
  (st.db.favorites.filter (fun f => f.user_id == uid && f.hotspot_id == hid)).length

/-- No two user rows share a username. -/
def usernamesNodup (st : AppState) : Prop :=
  (st.db.users.map (fun u => u.username)).Nodup

/-! ### Helper functions and lemmas about the proxy layer -/

/-- The upstream URL each operation builds (read off the handlers). -/
def urlOf : Op → Request → String
  | .obsLoc, r => EBIRD_API_BASE ++ "/data/obs/" ++ pyStrO (jget r.json "locationId")
      ++ "/recent/" ++ pyStrO (jget r.json "speciesCode")
  | .obsNearby, r => EBIRD_API_BASE ++ "/data/nearest/geo/recent/" ++ pyStrO (jget r.json "speciesCode")
  | .notable, _ => EBIRD_API_BASE ++ "/data/obs/geo/recent/notable"
  | .hotspotInfo, r => EBIRD_API_BASE ++ "/ref/hotspot/info/" ++ (aget r.args "locId").getD ""
  | .hotspotNearby, _ => EBIRD_API_BASE ++ "/ref/hotspot/geo"

/-- The upstream query parameters each operation builds. -/
def paramsOf : Op → Request → List (String × Val)
  | .obsLoc, r => [("back", jgetD r.json "daysBack" (.vnum 30))]
  | .obsNearby, r =>
      [("lat", (jget r.json "lat").getD .vnull), ("lng", (jget r.json "lng").getD .vnull),
       ("dist", jgetD r.json "dist" (.vnum 25)), ("back", jgetD r.json "daysBack" (.vnum 14)),
       ("sort", .vstr "date")]
  | .notable, r =>
      [("lat", (jget r.json "lat").getD .vnull), ("lng", (jget r.json "lng").getD .vnull),
       ("dist", jgetD r.json "dist" (.vnum 25)), ("back", jgetD r.json "daysBack" (.vnum 14)),
       ("detail", .vstr "full")]
  | .hotspotInfo, _ => [("fmt", .vstr "json")]
  | .hotspotNearby, r =>
      [("lat", .vstr ((aget r.args "lat").getD "")), ("lng", .vstr ((aget r.args "lng").getD "")),
       ("dist", match aget r.args "dist" with | some s => .vstr s | none => .vnum 25),
       ("fmt", .vstr "json")]

/-- The error-envelope label each operation uses for non-200 upstream status. -/
def labelOf : Op → String
  | .obsLoc => "eBird API error: "
  | .obsNearby => "eBird API error: "
  | .notable => "eBird API error: "
  | .hotspotInfo => "eBird error "
  | .hotspotNearby => "eBird error "

/-- The validation-error message each operation returns. -/
def msgOf : Op → String
  | .obsLoc => "Missing required parameters"
  | .obsNearby => "Missing required parameters"
  | .notable => "Missing required parameters"
  | .hotspotInfo => "Missing locId parameter"
  | .hotspotNearby => "Missing lat/lng parameters"

theorem runOp_configError (op : Op) (req : Request) (k : Option String)
    (up : UpReq → UpResp) (hk : truthyKey k = false) :
    runOp op req k up = ⟨500, errJson "Server configuration error: API key missing", []⟩ := by
  cases op <;>
    simp [runOp, get_observations, get_nearby_observations, get_notable_observations,
      get_hotspot_info, get_nearby_hotspots, hk]

theorem runOp_invalid (op : Op) (req : Request) (k : String)
    (up : UpReq → UpResp) (hk : ¬k.isEmpty) (hv : requiredFalsy op req = true) :
    runOp op req (some k) up = ⟨400, errJson (msgOf op), []⟩ := by
  cases op <;>
    simp_all [runOp, get_observations, get_nearby_observations, get_notable_observations,
      get_hotspot_info, get_nearby_hotspots, requiredFalsy, truthyKey, msgOf, hk]

theorem runOp_valid (op : Op) (req : Request) (k : String)
    (up : UpReq → UpResp) (hk : ¬k.isEmpty) (hv : requiredFalsy op req = false) :
    runOp op req (some k) up = callUpstream (urlOf op req) (paramsOf op req) k (labelOf op) up := by
  cases op <;>
    simp_all [runOp, get_observations, get_nearby_observations, get_notable_observations,
      get_hotspot_info, get_nearby_hotspots, requiredFalsy, truthyKey, urlOf, paramsOf, labelOf, hk]

theorem callUpstream_calls (url : String) (params : List (String × Val)) (key label : String)
    (up : UpReq → UpResp) :
    (callUpstream url params key label up).calls = [⟨url, params, [("X-eBirdApiToken", key)]⟩] := by
  simp only [callUpstream]
  split
  · split <;> rfl
  · rfl

theorem callUpstream_non200 (url : String) (params : List (String × Val)) (key label : String)
    (up : UpReq → UpResp)
    (hs : (up ⟨url, params, [("X-eBirdApiToken", key)]⟩).status ≠ 200) :
    callUpstream url params key label up =
      ⟨(up ⟨url, params, [("X-eBirdApiToken", key)]⟩).status,
       .obj [("error", .str (label ++ toString (up ⟨url, params, [("X-eBirdApiToken", key)]⟩).status)),
             ("message", .str (up ⟨url, params, [("X-eBirdApiToken", key)]⟩).text)],
       [⟨url, params, [("X-eBirdApiToken", key)]⟩]⟩ := by
  simp only [callUpstream]
  rw [if_neg]
  simpa using hs

theorem callUpstream_200 (url : String) (params : List (String × Val)) (key label : String)
    (up : UpReq → UpResp)
    (hs : (up ⟨url, params, [("X-eBirdApiToken", key)]⟩).status = 200) :
    callUpstream url params key label up =
      (match pyJsonLoads (up ⟨url, params, [("X-eBirdApiToken", key)]⟩).text with
       | some j => ⟨200, j, [⟨url, params, [("X-eBirdApiToken", key)]⟩]⟩
       | none => ⟨500, errJson jsonDecodeErrMsg, [⟨url, params, [("X-eBirdApiToken", key)]⟩]⟩) := by
  simp only [callUpstream]
  rw [if_pos]
  simpa using hs

/-- When the upstream oracle reads only the URL and the query parameters, the
status and body `callUpstream` produces do not depend on the credential. -/
theorem callUpstream_key_independent (url : String) (params : List (String × Val))
    (k₁ k₂ label : String) (up : String → List (String × Val) → UpResp) :
    (callUpstream url params k₁ label (fun q => up q.url q.params)).status
      = (callUpstream url params k₂ label (fun q => up q.url q.params)).status ∧
    (callUpstream url params k₁ label (fun q => up q.url q.params)).body
      = (callUpstream url params k₂ label (fun q => up q.url q.params)).body := by
  have hfold : ∀ k : String, callUpstream url params k label (fun q => up q.url q.params) =
      (if (up url params).status == 200 then
        match pyJsonLoads (up url params).text with
        | some j => ⟨200, j, [⟨url, params, [("X-eBirdApiToken", k)]⟩]⟩
        | none => ⟨500, errJson jsonDecodeErrMsg, [⟨url, params, [("X-eBirdApiToken", k)]⟩]⟩
       else
        ⟨(up url params).status,
         .obj [("error", .str (label ++ toString (up url params).status)),
               ("message", .str (up url params).text)],
         [⟨url, params, [("X-eBirdApiToken", k)]⟩]⟩) := fun k => rfl
  rw [hfold k₁, hfold k₂]
  by_cases h200 : ((up url params).status == 200) = true
  · rw [if_pos h200, if_pos h200]
    cases hp : pyJsonLoads (up url params).text <;> exact ⟨rfl, rfl⟩
  · rw [if_neg h200, if_neg h200]
    exact ⟨rfl, rfl⟩

/-- Turn a refuted truthiness condition into its `false` form. -/
theorem bool_eq_false {b : Bool} (h : ¬b = true) : b = false := by
  cases b
  · rfl
  · exact absurd rfl h

/-! ### The claims about the proxy layer -/

/-- C1: for every one of the five observation operations and every request,
the credential is attached to the upstream GET only as the X-eBirdApiToken
header: the URL and query parameters of every upstream call are the same for
any two present credentials, and so are the status and body returned to the
client (so no response body can echo the credential), whenever the upstream
answer depends only on the URL and parameters. -/
theorem claim_C1_credential_isolation (op : Op) (req : Request) (k₁ k₂ : String)
    (up : String → List (String × Val) → UpResp)
    (h₁ : ¬k₁.isEmpty) (h₂ : ¬k₂.isEmpty) :
    (runOp op req (some k₁) (fun q => up q.url q.params)).status
        = (runOp op req (some k₂) (fun q => up q.url q.params)).status ∧
      (runOp op req (some k₁) (fun q => up q.url q.params)).body
        = (runOp op req (some k₂) (fun q => up q.url q.params)).body ∧
      (runOp op req (some k₁) (fun q => up q.url q.params)).calls.map (fun c => (c.url, c.params))
        = (runOp op req (some k₂) (fun q => up q.url q.params)).calls.map (fun c => (c.url, c.params)) ∧
      (∀ c ∈ (runOp op req (some k₁) (fun q => up q.url q.params)).calls,
        c.headers = [("X-eBirdApiToken", k₁)]) := by
  by_cases hv : requiredFalsy op req = true
  · rw [runOp_invalid op req k₁ _ h₁ hv, runOp_invalid op req k₂ _ h₂ hv]
    exact ⟨rfl, rfl, rfl, by simp⟩
  · have hv' : requiredFalsy op req = false := bool_eq_false hv
    rw [runOp_valid op req k₁ _ h₁ hv', runOp_valid op req k₂ _ h₂ hv']
    obtain ⟨hstat, hbody⟩ :=
      callUpstream_key_independent (urlOf op req) (paramsOf op req) k₁ k₂ (labelOf op) up
    refine ⟨hstat, hbody, ?_, ?_⟩
    · rw [callUpstream_calls, callUpstream_calls]
      rfl
    · intro c hc
      rw [callUpstream_calls] at hc
      simp only [List.mem_singleton] at hc
      subst hc
      rfl

/-- Witness for C1: two different present credentials at a concrete request
yield the same status. -/
theorem claim_C1_credential_isolation_witness :
    (runOp .obsLoc ⟨[("locationId", .vstr "L227544"), ("speciesCode", .vstr "rebnut")], []⟩
        (some "key-one") (fun q => (fun _ _ => (⟨200, "[]"⟩ : UpResp)) q.url q.params)).status
      = (runOp .obsLoc ⟨[("locationId", .vstr "L227544"), ("speciesCode", .vstr "rebnut")], []⟩
        (some "key-two") (fun q => (fun _ _ => (⟨200, "[]"⟩ : UpResp)) q.url q.params)).status :=
  (claim_C1_credential_isolation .obsLoc
    ⟨[("locationId", .vstr "L227544"), ("speciesCode", .vstr "rebnut")], []⟩
    "key-one" "key-two" (fun _ _ => ⟨200, "[]"⟩) (by decide) (by decide)).1

/-- C2: if the server credential is absent or empty, every one of the five
observation operations returns HTTP 500 with the ConfigError body and issues
zero upstream calls, for every request; the credential check precedes
validation, so no ValidationError is produced. -/
theorem claim_C2_config_error_first (op : Op) (req : Request) (k : Option String)
    (up : UpReq → UpResp) (hk : truthyKey k = false) :
    (runOp op req k up).status = 500 ∧
      (runOp op req k up).body = errJson "Server configuration error: API key missing" ∧
      (runOp op req k up).calls = [] := by
  rw [runOp_configError op req k up hk]
  exact ⟨rfl, rfl, rfl⟩

/-- Witness for C2 at a concrete request with all required fields present. -/
theorem claim_C2_config_error_first_witness :
    truthyKey none = false ∧
      (runOp .obsLoc ⟨[("locationId", .vstr "L227544"), ("speciesCode", .vstr "rebnut")], []⟩
          none (fun _ => ⟨200, "[]"⟩)).status = 500 :=
  ⟨rfl, (claim_C2_config_error_first .obsLoc
    ⟨[("locationId", .vstr "L227544"), ("speciesCode", .vstr "rebnut")], []⟩
    none (fun _ => ⟨200, "[]"⟩) rfl).1⟩

/-- C3 counterexample: a species-near-point request whose required fields are
all present and non-empty (lat is the number 0) is rejected with 400 and no
upstream call, because the handlers test Python truthiness and 0 is falsy. -/
theorem claim_C3_counterexample :
    requiredPresentNonEmpty .obsNearby
        ⟨[("lat", .vnum 0), ("lng", .vnum 45), ("speciesCode", .vstr "rebnut")], []⟩ = true ∧
      (runOp .obsNearby ⟨[("lat", .vnum 0), ("lng", .vnum 45), ("speciesCode", .vstr "rebnut")], []⟩
          (some "srvkey") (fun _ => ⟨200, "[]"⟩)).status = 400 ∧
      (runOp .obsNearby ⟨[("lat", .vnum 0), ("lng", .vnum 45), ("speciesCode", .vstr "rebnut")], []⟩
          (some "srvkey") (fun _ => ⟨200, "[]"⟩)).calls = [] := by
  decide

/-- C3 (amended): with the credential present, an operation returns 400 with
zero upstream calls iff some required field of that operation is falsy under
Python truthiness (absent, null, empty string, numeric zero, or false); when
every required field is truthy, exactly one upstream call is issued. -/
theorem claim_C3_validation_iff_falsy (op : Op) (req : Request) (k : String)
    (up : UpReq → UpResp) (hk : ¬k.isEmpty) :
    (((runOp op req (some k) up).status = 400 ∧ (runOp op req (some k) up).calls = []) ↔
      requiredFalsy op req = true) ∧
      (requiredFalsy op req = false → (runOp op req (some k) up).calls.length = 1) := by
  by_cases hv : requiredFalsy op req = true
  · rw [runOp_invalid op req k up hk hv]
    constructor
    · simp [hv]
    · intro h
      rw [hv] at h
      cases h
  · have hv' : requiredFalsy op req = false := bool_eq_false hv
    rw [runOp_valid op req k up hk hv']
    constructor
    · constructor
      · rintro ⟨-, hcalls⟩
        rw [callUpstream_calls] at hcalls
        cases hcalls
      · intro h
        rw [h] at hv'
        cases hv'
    · intro _
      rw [callUpstream_calls]
      rfl

/-- Witness for the amended C3: a request missing speciesCode is rejected
with 400 and no call; a complete request issues exactly one call. -/
theorem claim_C3_validation_iff_falsy_witness :
    (runOp .obsLoc ⟨[("locationId", .vstr "L1")], []⟩ (some "srvkey")
        (fun _ => ⟨200, "[]"⟩)).status = 400 ∧
      (runOp .obsLoc ⟨[("locationId", .vstr "L1"), ("speciesCode", .vstr "rebnut")], []⟩
          (some "srvkey") (fun _ => ⟨200, "[]"⟩)).calls.length = 1 :=
  ⟨((claim_C3_validation_iff_falsy .obsLoc ⟨[("locationId", .vstr "L1")], []⟩ "srvkey"
      (fun _ => ⟨200, "[]"⟩) (by decide)).1.mpr (by decide)).1,
   (claim_C3_validation_iff_falsy .obsLoc
      ⟨[("locationId", .vstr "L1"), ("speciesCode", .vstr "rebnut")], []⟩ "srvkey"
      (fun _ => ⟨200, "[]"⟩) (by decide)).2 (by decide)⟩

/-- C4 counterexample: the 200 path is not byte-for-byte forwarding.  A 200
upstream body that is not JSON is answered with HTTP 500 (the handler parses
it and the parse raises), and a 200 JSON body is re-serialized: the forwarded
bytes differ from the upstream bytes. -/
theorem claim_C4_counterexample :
    (runOp .obsLoc ⟨[("locationId", .vstr "L1"), ("speciesCode", .vstr "rebnut")], []⟩
        (some "srvkey") (fun _ => ⟨200, "not json"⟩)).status = 500 ∧
      (runOp .obsLoc ⟨[("locationId", .vstr "L1"), ("speciesCode", .vstr "rebnut")], []⟩
          (some "srvkey") (fun _ => ⟨200, " 1"⟩)).status = 200 ∧
      pyJsonDumps (runOp .obsLoc ⟨[("locationId", .vstr "L1"), ("speciesCode", .vstr "rebnut")], []⟩
          (some "srvkey") (fun _ => ⟨200, " 1"⟩)).body ≠ " 1" := by
  decide

/-- C4 (amended): with the credential present and validation passed, when the
upstream responds 200 the handler parses the body as JSON; if the parse
succeeds the client receives status 200 with the parsed value as body
(JSON-value equivalence, not byte equality), and if the body is not valid
JSON the client receives status 500. -/
theorem claim_C4_upstream_200_forwarded (op : Op) (req : Request) (k : String)
    (up : UpReq → UpResp) (hk : ¬k.isEmpty) (hv : requiredFalsy op req = false)
    (c : UpReq) (hc : c ∈ (runOp op req (some k) up).calls)
    (hs : (up c).status = 200) :
    (∀ j, pyJsonLoads (up c).text = some j →
        (runOp op req (some k) up).status = 200 ∧ (runOp op req (some k) up).body = j) ∧
      (pyJsonLoads (up c).text = none → (runOp op req (some k) up).status = 500) := by
  rw [runOp_valid op req k up hk hv] at hc ⊢
  rw [callUpstream_calls] at hc
  simp only [List.mem_singleton] at hc
  subst hc
  rw [callUpstream_200 _ _ _ _ _ hs]
  constructor
  · intro j hj
    rw [hj]
    exact ⟨rfl, rfl⟩
  · intro hj
    rw [hj]

/-- Witness for the amended C4: a concrete 200 upstream answer with body
`[]` reaches the client as status 200 with the empty JSON array. -/
theorem claim_C4_upstream_200_forwarded_witness :
    (runOp .hotspotInfo ⟨[], [("locId", "L99")]⟩ (some "srvkey")
        (fun _ => ⟨200, "[]"⟩)).status = 200 :=
  ((claim_C4_upstream_200_forwarded .hotspotInfo ⟨[], [("locId", "L99")]⟩ "srvkey"
      (fun _ => ⟨200, "[]"⟩) (by decide) (by decide)
      ⟨EBIRD_API_BASE ++ "/ref/hotspot/info/" ++ "L99", [("fmt", .vstr "json")],
        [("X-eBirdApiToken", "srvkey")]⟩
      (by decide) (by decide)).1 (.arr []) rfl).1

/-- C5: with the credential present and validation passed, any non-200
upstream status is passed through unchanged as the client status, and the
body is the error/message envelope whose message is exactly the upstream
response body text. -/
theorem claim_C5_upstream_error_passthrough (op : Op) (req : Request) (k : String)
    (up : UpReq → UpResp) (hk : ¬k.isEmpty) (hv : requiredFalsy op req = false)
    (c : UpReq) (hc : c ∈ (runOp op req (some k) up).calls)
    (hs : (up c).status ≠ 200) :
    (runOp op req (some k) up).status = (up c).status ∧
      ∃ e, (runOp op req (some k) up).body =
        .obj [("error", .str e), ("message", .str (up c).text)] := by
  rw [runOp_valid op req k up hk hv] at hc ⊢
  rw [callUpstream_calls] at hc
  simp only [List.mem_singleton] at hc
  subst hc
  rw [callUpstream_non200 _ _ _ _ _ hs]
  exact ⟨rfl, ⟨_, rfl⟩⟩

/-- Witness for C5: a concrete 404 upstream answer is passed through as 404. -/
theorem claim_C5_upstream_error_passthrough_witness :
    (runOp .hotspotInfo ⟨[], [("locId", "L99")]⟩ (some "srvkey")
        (fun _ => ⟨404, "no hotspot"⟩)).status = 404 :=
  (claim_C5_upstream_error_passthrough .hotspotInfo ⟨[], [("locId", "L99")]⟩ "srvkey"
      (fun _ => ⟨404, "no hotspot"⟩) (by decide) (by decide)
      ⟨EBIRD_API_BASE ++ "/ref/hotspot/info/" ++ "L99", [("fmt", .vstr "json")],
        [("X-eBirdApiToken", "srvkey")]⟩
      (by decide) (by decide)).1

/-! ### Helper lemmas about accounts and favorites -/

theorem register_conflict (st : AppState) (u p : String)
    (hu : u.isEmpty = false) (hp : p.isEmpty = false)
    (user₀ : UserRec) (h : st.db.users.find? (fun x => x.username == u) = some user₀) :
    register st u p = ⟨st, 400, errJson "Username already exists"⟩ := by
  simp [register, hu, hp, h]

theorem register_fresh (st : AppState) (u p : String)
    (hu : u.isEmpty = false) (hp : p.isEmpty = false)
    (h : st.db.users.find? (fun x => x.username == u) = none) :
    register st u p =
      ⟨⟨⟨st.db.users ++ [⟨st.db.nextUserId, u, generate_password_hash p⟩], st.db.favorites,
          st.db.nextUserId + 1, st.db.nextFavId⟩, some st.db.nextUserId⟩,
        200,
        .obj [("message", .str "Registration successful"),
              ("user", .obj [("id", .num (st.db.nextUserId : Int)), ("username", .str u)])]⟩ := by
  simp [register, hu, hp, h]

theorem step_preserves_usernamesNodup (st : AppState) (a : Action)
    (h : usernamesNodup st) : usernamesNodup (step st a) := by
  cases a with
  | register u p =>
    simp only [step, register]
    split
    · exact h
    · split
      · exact h
      · next hfind =>
        have habs := List.find?_eq_none.mp hfind
        have hmem : u ∉ st.db.users.map (fun x => x.username) := by
          intro hmem
          obtain ⟨x, hx, hxu⟩ := List.mem_map.mp hmem
          exact habs x hx (by simp [hxu])
        simp only [usernamesNodup, List.map_append, List.map_cons, List.map_nil]
        rw [List.nodup_append]
        exact ⟨h, List.nodup_singleton u, by simp [hmem]⟩
  | login u p =>
    simp only [step, login]
    split
    · split <;> exact h
    · exact h
  | logout =>
    simp only [step, logout]
    split <;> exact h
  | whoami =>
    simp only [step, get_current_user]
    split
    · exact h
    · split <;> exact h
  | favGet =>
    simp only [step, manage_favorites_get]
    split <;> exact h
  | favAdd hid name =>
    simp only [step, manage_favorites_post]
    split
    · exact h
    · split
      · exact h
      · split <;> exact h
  | favRemove hid =>
    simp only [step, delete_favorite]
    split
    · exact h
    · split <;> exact h

theorem foldl_step_nodup : ∀ (acts : List Action) (st : AppState),
    usernamesNodup st → usernamesNodup (acts.foldl step st)
  | [], _, h => h
  | a :: as, st, h => foldl_step_nodup as (step st a) (step_preserves_usernamesNodup st a h)

theorem countFav_zero_find (st : AppState) (uid : Nat) (hid : String)
    (h : countFav st uid hid = 0) :
    st.db.favorites.find? (fun f => f.user_id == uid && f.hotspot_id == hid) = none := by
  rw [List.find?_eq_none]
  have hfil := List.filter_eq_nil_iff.mp (List.length_eq_zero.mp h)
  intro x hx hp
  exact hfil x hx hp

theorem post_fresh (st : AppState) (uid : Nat) (hid name : String)
    (hs : st.session = some uid) (hh : hid.isEmpty = false) (hn : name.isEmpty = false)
    (hf : st.db.favorites.find? (fun f => f.user_id == uid && f.hotspot_id == hid) = none) :
    manage_favorites_post st hid name =
      ⟨⟨⟨st.db.users, st.db.favorites ++ [⟨st.db.nextFavId, uid, hid, name⟩],
          st.db.nextUserId, st.db.nextFavId + 1⟩, st.session⟩,
        200, .obj [("message", .str "Added to favorites")]⟩ := by
  simp [manage_favorites_post, hs, hh, hn, hf]

theorem find?_append_singleton_pos (favs : List Favorite) (p : Favorite → Bool) (x : Favorite)
    (hf : favs.find? p = none) (hx : p x = true) :
    (favs ++ [x]).find? p = some x := by
  rw [List.find?_append, hf]
  simp [List.find?_cons_of_pos _ hx]

theorem post_existing (st : AppState) (uid : Nat) (hid name : String) (fav : Favorite)
    (hs : st.session = some uid) (hh : hid.isEmpty = false) (hn : name.isEmpty = false)
    (hf : st.db.favorites.find? (fun f => f.user_id == uid && f.hotspot_id == hid) = some fav) :
    manage_favorites_post st hid name
      = ⟨st, 200, .obj [("message", .str "Already in favorites")]⟩ := by
  simp [manage_favorites_post, hs, hh, hn, hf]

theorem delete_found (st : AppState) (uid : Nat) (hid : String) (fav : Favorite)
    (hs : st.session = some uid)
    (hf : st.db.favorites.find? (fun f => f.user_id == uid && f.hotspot_id == hid) = some fav) :
    delete_favorite st hid =
      ⟨⟨⟨st.db.users, st.db.favorites.filter (fun f => f.id != fav.id),
          st.db.nextUserId, st.db.nextFavId⟩, st.session⟩,
        200, .obj [("message", .str "Deleted")]⟩ := by
  simp [delete_favorite, hs, hf]

/-- A server state used by the witnesses: one registered user, logged in. -/
def favState : AppState :=
  ⟨⟨[⟨1, "alice", generate_password_hash "pw"⟩], [], 2, 1⟩, some 1⟩

/-- A server state used by the witnesses: the caller (user 1) is logged in
and the only favorite row belongs to another user (user 2). -/
def othersFavState : AppState :=
  ⟨⟨[], [⟨1, 2, "L1", "Spot"⟩], 1, 2⟩, some 1⟩

/-! ### The claims about accounts and favorites -/

/-- C6: a login with an unknown username and a login with a known username
but wrong password both fail with HTTP 401 and identical response bodies, so
the response does not reveal whether the username exists. -/
theorem claim_C6_login_uniform_401 (st : AppState) (u₁ p₁ u₂ p₂ : String)
    (h₁ : st.db.users.find? (fun x => x.username == u₁) = none)
    (user₀ : UserRec)
    (h₂ : st.db.users.find? (fun x => x.username == u₂) = some user₀)
    (h₃ : check_password_hash user₀.password_hash p₂ = false) :
    (login st u₁ p₁).status = 401 ∧ (login st u₂ p₂).status = 401 ∧
      (login st u₁ p₁).body = (login st u₂ p₂).body := by
  simp [login, h₁, h₂, h₃]

/-- Witness for C6: unknown username and wrong password at a concrete store. -/
theorem claim_C6_login_uniform_401_witness :
    (login favState "bob" "pw").status = 401 ∧ (login favState "alice" "wrong").status = 401 :=
  ⟨(claim_C6_login_uniform_401 favState "bob" "pw" "alice" "wrong" (by decide)
      ⟨1, "alice", generate_password_hash "pw"⟩ (by decide) (by decide)).1,
   (claim_C6_login_uniform_401 favState "bob" "pw" "alice" "wrong" (by decide)
      ⟨1, "alice", generate_password_hash "pw"⟩ (by decide) (by decide)).2.1⟩

/-- C7: registering an already-used username (fields non-empty) fails with
400 Conflict and leaves the state unchanged; a first registration with fresh
non-empty username and password succeeds with 200, appends exactly one user
row and establishes a session; and every state reachable from a fresh server
has pairwise distinct usernames. -/
theorem claim_C7_username_uniqueness :
    (∀ (st : AppState) (u p : String) (user₀ : UserRec),
        u.isEmpty = false → p.isEmpty = false →
        st.db.users.find? (fun x => x.username == u) = some user₀ →
        register st u p = ⟨st, 400, errJson "Username already exists"⟩) ∧
      (∀ (st : AppState) (u p : String),
        u.isEmpty = false → p.isEmpty = false →
        st.db.users.find? (fun x => x.username == u) = none →
        (register st u p).status = 200 ∧
          (register st u p).st.db.users
            = st.db.users ++ [⟨st.db.nextUserId, u, generate_password_hash p⟩] ∧
          (register st u p).st.session = some st.db.nextUserId) ∧
      (∀ acts : List Action, usernamesNodup (runActions acts)) := by
  refine ⟨fun st u p user₀ hu hp h => register_conflict st u p hu hp user₀ h, ?_, ?_⟩
  · intro st u p hu hp h
    rw [register_fresh st u p hu hp h]
    exact ⟨rfl, rfl, rfl⟩
  · intro acts
    exact foldl_step_nodup acts initialState (by simp [usernamesNodup, initialState])

/-- Witness for C7: on a fresh server, registering alice succeeds; a second
registration of alice is the Conflict error and changes nothing; the
two-action trace keeps usernames distinct. -/
theorem claim_C7_username_uniqueness_witness :
    (register initialState "alice" "pw").status = 200 ∧
      register (register initialState "alice" "pw").st "alice" "pw2"
        = ⟨(register initialState "alice" "pw").st, 400, errJson "Username already exists"⟩ ∧
      usernamesNodup (runActions [.register "alice" "pw", .register "alice" "pw2"]) :=
  ⟨(claim_C7_username_uniqueness.2.1 initialState "alice" "pw" rfl rfl rfl).1,
   claim_C7_username_uniqueness.1 (register initialState "alice" "pw").st "alice" "pw2"
     ⟨1, "alice", generate_password_hash "pw"⟩ rfl rfl (by decide),
   claim_C7_username_uniqueness.2.2 [.register "alice" "pw", .register "alice" "pw2"]⟩

/-- C8: for an authenticated user, add is idempotent: starting with no
(user, hotspotId) row, the first add succeeds and creates exactly one row;
the second add with the same arguments succeeds, changes nothing, and leaves
the list length unchanged. -/
theorem claim_C8_add_idempotent (st : AppState) (uid : Nat) (hid name : String)
    (hs : st.session = some uid) (hh : hid.isEmpty = false) (hn : name.isEmpty = false)
    (h0 : countFav st uid hid = 0) :
    (manage_favorites_post st hid name).status = 200 ∧
      countFav (manage_favorites_post st hid name).st uid hid = 1 ∧
      (manage_favorites_post (manage_favorites_post st hid name).st hid name).status = 200 ∧
      (manage_favorites_post (manage_favorites_post st hid name).st hid name).st
        = (manage_favorites_post st hid name).st ∧
      favList (manage_favorites_post (manage_favorites_post st hid name).st hid name).st uid
        = favList (manage_favorites_post st hid name).st uid := by
  have hf : st.db.favorites.find? (fun f => f.user_id == uid && f.hotspot_id == hid) = none :=
    countFav_zero_find st uid hid h0
  have hnew : ((fun f : Favorite => f.user_id == uid && f.hotspot_id == hid)
      ⟨st.db.nextFavId, uid, hid, name⟩) = true := by simp
  have h1 := post_fresh st uid hid name hs hh hn hf
  have hsess1 : (manage_favorites_post st hid name).st.session = some uid := by
    rw [h1]
    exact hs
  have hfav1 : (manage_favorites_post st hid name).st.db.favorites
      = st.db.favorites ++ [⟨st.db.nextFavId, uid, hid, name⟩] := by
    rw [h1]
  have hfind2 : (manage_favorites_post st hid name).st.db.favorites.find?
      (fun f => f.user_id == uid && f.hotspot_id == hid)
      = some ⟨st.db.nextFavId, uid, hid, name⟩ := by
    rw [hfav1]
    exact find?_append_singleton_pos _ _ _ hf hnew
  have h2 := post_existing (manage_favorites_post st hid name).st uid hid name
    ⟨st.db.nextFavId, uid, hid, name⟩ hsess1 hh hn hfind2
  have hcount : countFav (manage_favorites_post st hid name).st uid hid = 1 := by
    unfold countFav
    rw [hfav1, List.filter_append, List.length_eq_zero.mp h0]
    simp [hnew]
  refine ⟨by rw [h1], hcount, by rw [h2], by rw [h2], by rw [h2]⟩

/-- Witness for C8 at a concrete logged-in state. -/
theorem claim_C8_add_idempotent_witness :
    (manage_favorites_post favState "L1" "Spot").status = 200 ∧
      (manage_favorites_post (manage_favorites_post favState "L1" "Spot").st "L1" "Spot").st
        = (manage_favorites_post favState "L1" "Spot").st :=
  ⟨(claim_C8_add_idempotent favState 1 "L1" "Spot" rfl rfl rfl rfl).1,
   (claim_C8_add_idempotent favState 1 "L1" "Spot" rfl rfl rfl rfl).2.2.2.1⟩

/-- C9: for an authenticated caller with no favorite row for this hotspot id,
remove answers exactly 404 Not found and changes nothing — in particular when
the only row with that hotspot id belongs to another user, the response is
that same 404 and every stored row (so also the other user's) still appears
in its owner's list. -/
theorem claim_C9_remove_not_found (st : AppState) (uid : Nat) (hid : String)
    (hs : st.session = some uid)
    (habs : ∀ f ∈ st.db.favorites, ¬(f.user_id = uid ∧ f.hotspot_id = hid)) :
    delete_favorite st hid = ⟨st, 404, errJson "Not found"⟩ ∧
      ∀ f ∈ st.db.favorites, favEntry f ∈ favList (delete_favorite st hid).st f.user_id := by
  have hf : st.db.favorites.find? (fun f => f.user_id == uid && f.hotspot_id == hid) = none := by
    rw [List.find?_eq_none]
    intro x hx hp
    rw [Bool.and_eq_true, beq_iff_eq, beq_iff_eq] at hp
    exact habs x hx hp
  have heq : delete_favorite st hid = ⟨st, 404, errJson "Not found"⟩ := by
    simp [delete_favorite, hs, hf]
  refine ⟨heq, ?_⟩
  intro f hfmem
  rw [heq]
  exact List.mem_map_of_mem favEntry (List.mem_filter.mpr ⟨hfmem, by simp⟩)

/-- Witness for C9: the caller (user 1) removes L1, which only user 2 owns. -/
theorem claim_C9_remove_not_found_witness :
    delete_favorite othersFavState "L1" = ⟨othersFavState, 404, errJson "Not found"⟩ ∧
      favEntry ⟨1, 2, "L1", "Spot"⟩ ∈ favList (delete_favorite othersFavState "L1").st 2 :=
  ⟨(claim_C9_remove_not_found othersFavState 1 "L1" rfl (by decide)).1,
   (claim_C9_remove_not_found othersFavState 1 "L1" rfl (by decide)).2
     ⟨1, 2, "L1", "Spot"⟩ (by decide)⟩

/-- C10: the `id` field of each list entry is the external hotspot id, so add
and remove round-trip: after a fresh add of (hid, name), removing hid
succeeds and afterwards no favorite row of the caller (hence no list entry)
carries hid. -/
theorem claim_C10_list_id_roundtrip (st : AppState) (uid : Nat) (hid name : String)
    (hs : st.session = some uid) (hh : hid.isEmpty = false) (hn : name.isEmpty = false)
    (h0 : countFav st uid hid = 0) :
    (manage_favorites_get st).body
        = .arr ((st.db.favorites.filter (fun f => f.user_id == uid)).map
            (fun f => Json.obj [("id", Json.str f.hotspot_id), ("name", Json.str f.hotspot_name)])) ∧
      (delete_favorite (manage_favorites_post st hid name).st hid).status = 200 ∧
      ∀ f ∈ (delete_favorite (manage_favorites_post st hid name).st hid).st.db.favorites,
        f.user_id = uid → f.hotspot_id ≠ hid := by
  have hf : st.db.favorites.find? (fun f => f.user_id == uid && f.hotspot_id == hid) = none :=
    countFav_zero_find st uid hid h0
  have habs := List.find?_eq_none.mp hf
  have hnew : ((fun f : Favorite => f.user_id == uid && f.hotspot_id == hid)
      ⟨st.db.nextFavId, uid, hid, name⟩) = true := by simp
  have h1 := post_fresh st uid hid name hs hh hn hf
  have hsess1 : (manage_favorites_post st hid name).st.session = some uid := by
    rw [h1]
    exact hs
  have hfav1 : (manage_favorites_post st hid name).st.db.favorites
      = st.db.favorites ++ [⟨st.db.nextFavId, uid, hid, name⟩] := by
    rw [h1]
  have hfind2 : (manage_favorites_post st hid name).st.db.favorites.find?
      (fun f => f.user_id == uid && f.hotspot_id == hid)
      = some ⟨st.db.nextFavId, uid, hid, name⟩ := by
    rw [hfav1]
    exact find?_append_singleton_pos _ _ _ hf hnew
  have h2 := delete_found (manage_favorites_post st hid name).st uid hid
    ⟨st.db.nextFavId, uid, hid, name⟩ hsess1 hfind2
  refine ⟨by simp [manage_favorites_get, hs, favList, favEntry], by rw [h2], ?_⟩
  intro f hfmem hfu
  rw [h2] at hfmem
  simp only at hfmem
  rw [hfav1] at hfmem
  have hfil := List.mem_filter.mp hfmem
  have hid_ne : (f.id != st.db.nextFavId) = true := hfil.2
  have hmem2 := hfil.1
  rw [List.mem_append] at hmem2
  rcases hmem2 with hold | hnewmem
  · intro hcontra
    exact habs f hold (by simp [hfu, hcontra])
  · rw [List.mem_singleton] at hnewmem
    subst hnewmem
    simp at hid_ne

/-- Witness for C10 at a concrete logged-in state. -/
theorem claim_C10_list_id_roundtrip_witness :
    (delete_favorite (manage_favorites_post favState "L1" "Spot").st "L1").status = 200 :=
  (claim_C10_list_id_roundtrip favState 1 "L1" "Spot" rfl rfl rfl rfl).2.1

end EbirdChecker
